import Mathlib

/-!
Verification of the two icon-generation scripts of this repository
(`src/desktop/generate_icons.py` and `src/scripts/generate-icons.py`)
against their natural-language specification.

The Python code is shallowly embedded: pure integer arithmetic (`//`,
`int(...)` on nonnegative values) becomes `Nat`/`Int` arithmetic with
explicit floor division, float expressions are modelled exactly over
`ℚ` or `ℝ`, Python's truncating `int()` becomes floor on nonnegative
values and ceiling on negative ones, and PIL drawing primitives are
modelled as pixel predicates (a pixel is painted iff it satisfies the
shape's inclusion test; PIL's `ImageDraw` primitives do not
antialias).  Fallible parsing returns `Option`.
-/

/-- An 8-bit-per-channel RGBA pixel (channels kept as unbounded
integers; the program only ever produces values in `[0, 255]`). -/
structure RGBA where
  r : ℤ
  g : ℤ
  b : ℤ
  a : ℤ
deriving DecidableEq, Repr

/-- Pixel test for PIL's filled ellipse inscribed in the (inclusive)
bounding box `[x0, y0, x1, y1]`: the standard ellipse inequality,
cleared of denominators. -/
def inEllipse (x0 y0 x1 y1 x y : ℤ) : Prop :=
  ((2 * x - (x0 + x1)) * (y1 - y0)) ^ 2 + ((2 * y - (y0 + y1)) * (x1 - x0)) ^ 2 ≤
    ((x1 - x0) * (y1 - y0)) ^ 2

instance (x0 y0 x1 y1 x y : ℤ) : Decidable (inEllipse x0 y0 x1 y1 x y) := by
  unfold inEllipse; infer_instance

/-- Pixel test for PIL's filled rectangle with (inclusive) bounding box
`[x0, y0, x1, y1]`. -/
def inRect (x0 y0 x1 y1 x y : ℤ) : Prop :=
  x0 ≤ x ∧ x ≤ x1 ∧ y0 ≤ y ∧ y ≤ y1

instance (x0 y0 x1 y1 x y : ℤ) : Decidable (inRect x0 y0 x1 y1 x y) := by
  unfold inRect; infer_instance

namespace Desktop

/-! ### `src/desktop/generate_icons.py`

`create_template_icon(size)` computes `scale = size / 22.0` and a
handful of pixel coordinates via `int(k * scale)`; on nonnegative
arguments Python's `int()` is the floor, so `int(k * size / 22.0)`
is embedded as natural-number division `k * size / 22`. -/

/-- `head_radius = int(3 * scale)`. -/
def head_radius (size : ℕ) : ℕ := 3 * size / 22

/-- `head_center_x = size // 2`. -/
def head_center_x (size : ℕ) : ℕ := size / 2

/-- `head_center_y = int(5 * scale)`. -/
def head_center_y (size : ℕ) : ℕ := 5 * size / 22

/-- `spine_width = int(2 * scale)`. -/
def spine_width (size : ℕ) : ℕ := 2 * size / 22

/-- `spine_left = head_center_x - spine_width // 2`. -/
def spine_left (size : ℕ) : ℕ := head_center_x size - spine_width size / 2

/-- `spine_top = head_center_y + head_radius`. -/
def spine_top (size : ℕ) : ℕ := head_center_y size + head_radius size

/-- `spine_bottom = int(19 * scale)`. -/
def spine_bottom (size : ℕ) : ℕ := 19 * size / 22

/-- `create_template_icon(size)`: a transparent RGBA canvas on which a
filled head circle and a filled spine rectangle are drawn in opaque
black.  The result is the per-pixel color function of the canvas. -/
def create_template_icon (size : ℕ) (x y : ℕ) : RGBA :=
  let hr : ℤ := head_radius size
  let cx : ℤ := head_center_x size
  let cy : ℤ := head_center_y size
  let sw : ℤ := spine_width size
  let sl : ℤ := spine_left size
  let st : ℤ := spine_top size
  let sb : ℤ := spine_bottom size
  if inEllipse (cx - hr) (cy - hr) (cx + hr) (cy + hr) x y ∨
      inRect sl st (sl + sw) sb x y then
    ⟨0, 0, 0, 255⟩
  else
    ⟨0, 0, 0, 0⟩

/-! #### Hex color parsing

`create_colored_circle` parses its hex string with
`color_hex.lstrip('#')` followed by `int(color_hex[i:i+2], 16)` for
`i in (0, 2, 4)`.  Python's `int(s, 16)` strips surrounding ASCII
whitespace, accepts one optional sign, and then requires a nonempty
run of hex digits in which `_` may occur only between two digits; it
raises `ValueError` otherwise, which we model as `none`.  (The `0x`
prefix path of `int(·, 16)` is omitted: the program only ever passes
slices of length ≤ 2, on which it cannot change the result.) -/

/-- ASCII whitespace stripped by Python's `int`. -/
def isSpaceChar (c : Char) : Bool :=
  c == ' ' || c == '\t' || c == '\n' || c == '\x0b' || c == '\x0c' || c == '\r'

/-- Hex digits accepted by Python's `int(·, 16)`. -/
def isHexDigit (c : Char) : Bool :=
  ('0' ≤ c && c ≤ '9') || ('a' ≤ c && c ≤ 'f') || ('A' ≤ c && c ≤ 'F')

/-- Numeric value of one hex digit. -/
def hexVal (c : Char) : ℕ :=
  if '0' ≤ c ∧ c ≤ '9' then c.toNat - '0'.toNat
  else if 'a' ≤ c ∧ c ≤ 'f' then c.toNat - 'a'.toNat + 10
  else if 'A' ≤ c ∧ c ≤ 'F' then c.toNat - 'A'.toNat + 10
  else 0

/-- Value of a big-endian string of hex digits. -/
def hexListVal (s : List Char) : ℕ :=
  s.foldl (fun acc c => acc * 16 + hexVal c) 0

/-- No two adjacent underscores. -/
def noDoubleUnderscore : List Char → Bool
  | [] => true
  | [_] => true
  | a :: b :: rest => (!(a == '_' && b == '_')) && noDoubleUnderscore (b :: rest)

/-- The digit part accepted by Python's `int(·, 16)`: nonempty, hex
digits with `_` allowed only strictly between digits. -/
def validDigits (s : List Char) : Bool :=
  (!s.isEmpty) && (s.head? != some '_') && (s.getLast? != some '_') &&
    noDoubleUnderscore s && s.all (fun c => c == '_' || isHexDigit c)

/-- Strip ASCII whitespace from both ends. -/
def stripWS (s : List Char) : List Char :=
  ((s.dropWhile isSpaceChar).reverse.dropWhile isSpaceChar).reverse

/-- Parse an unsigned run of hex digits. -/
def parseDigits (s : List Char) : Option ℤ :=
  if validDigits s then some (hexListVal (s.filter (fun c => !(c == '_')))) else none

/-- Python's `int(s, 16)` (sans the unreachable `0x`-prefix path). -/
def pyIntHex (s : List Char) : Option ℤ :=
  let t := stripWS s
  if t.head? = some '-' then (parseDigits t.tail).map (fun v => -v)
  else if t.head? = some '+' then parseDigits t.tail
  else parseDigits t

/-- `color_hex.lstrip('#')`: drop every leading `'#'`. -/
def lstripHash (s : List Char) : List Char :=
  s.dropWhile (fun c => c == '#')

/-- `r, g, b = tuple(int(color_hex[i:i+2], 16) for i in (0, 2, 4))`
after the `lstrip('#')`; `none` models the uncaught `ValueError`. -/
def parseHexColor (s : List Char) : Option (ℤ × ℤ × ℤ) :=
  let t := lstripHash s
  match pyIntHex ((t.drop 0).take 2), pyIntHex ((t.drop 2).take 2),
      pyIntHex ((t.drop 4).take 2) with
  | some r, some g, some b => some (r, g, b)
  | _, _, _ => none

/-- `radius = int(size * 0.35)`. -/
def circle_radius (size : ℕ) : ℕ := size * 35 / 100

/-- `center = size // 2`. -/
def circle_center (size : ℕ) : ℕ := size / 2

/-- The drawing part of `create_colored_circle`, for an already parsed
`(r, g, b)`: one filled circle at alpha 230 on a transparent canvas. -/
def create_colored_circle_rgb (size : ℕ) (r g b : ℤ) (x y : ℕ) : RGBA :=
  let rad : ℤ := circle_radius size
  let c : ℤ := circle_center size
  if inEllipse (c - rad) (c - rad) (c + rad) (c + rad) x y then
    ⟨r, g, b, 230⟩
  else
    ⟨0, 0, 0, 0⟩

/-- `create_colored_circle(size, color_hex)`: parse, then draw; a
parse failure (Python `ValueError`) is `none`. -/
def create_colored_circle (size : ℕ) (color_hex : List Char) :
    Option (ℕ → ℕ → RGBA) :=
  (parseHexColor color_hex).map fun c =>
    create_colored_circle_rgb size c.1 c.2.1 c.2.2

/-- A file written by `main`: name plus the image it saves. -/
structure SavedFile where
  name : String
  width : ℕ
  height : ℕ
  pixels : ℕ → ℕ → RGBA

/-- `main()`: the ordered list of files written (two template icons,
then, for green/yellow/red in dict order, the 1x and 2x colored
dots); `none` models an uncaught parse failure. -/
def main : Option (List SavedFile) := do
  let g1 ← create_colored_circle 22 "#10b981".toList
  let g2 ← create_colored_circle 44 "#10b981".toList
  let y1 ← create_colored_circle 22 "#f59e0b".toList
  let y2 ← create_colored_circle 44 "#f59e0b".toList
  let r1 ← create_colored_circle 22 "#ef4444".toList
  let r2 ← create_colored_circle 44 "#ef4444".toList
  pure
    [⟨"iconTemplate.png", 22, 22, create_template_icon 22⟩,
     ⟨"iconTemplate@2x.png", 44, 44, create_template_icon 44⟩,
     ⟨"icon-green.png", 22, 22, g1⟩,
     ⟨"icon-green@2x.png", 44, 44, g2⟩,
     ⟨"icon-yellow.png", 22, 22, y1⟩,
     ⟨"icon-yellow@2x.png", 44, 44, y2⟩,
     ⟨"icon-red.png", 22, 22, r1⟩,
     ⟨"icon-red@2x.png", 44, 44, r2⟩]

end Desktop

namespace Scripts

/-! ### `src/scripts/generate-icons.py`

The app-icon generator.  Color interpolation happens on exact values
(modelled over `ℚ`); the geometry depends on `math.sin` and `math.pi`
and is modelled over `ℝ`.  Python's truncating `int()` is `pyIntQ` /
`pyIntR` (floor for nonnegative arguments, ceiling for negative
ones), and Python's floor division `//` on integers is `Int.fdiv`. -/

def DARK_BG : ℕ × ℕ × ℕ := (15, 23, 42)

def TEAL : ℕ × ℕ × ℕ := (20, 184, 166)

def TEAL_LIGHT : ℕ × ℕ × ℕ := (94, 234, 212)

/-- Python `int()` on an exact rational: truncation toward zero. -/
def pyIntQ (x : ℚ) : ℤ := if 0 ≤ x then ⌊x⌋ else ⌈x⌉

/-- Python `int()` on a real: truncation toward zero. -/
noncomputable def pyIntR (x : ℝ) : ℤ := if 0 ≤ x then ⌊x⌋ else ⌈x⌉

/-- One channel of a vertebra's fill color:
`int(color_accent[k] + (color_main[k] - color_accent[k]) * t)` with
`t = i / (vertebrae_count - 1) = i / 6`. -/
def vertebra_channel (ca cm : ℕ) (i : ℕ) : ℤ :=
  pyIntQ ((ca : ℚ) + ((cm : ℚ) - (ca : ℚ)) * ((i : ℚ) / 6))

/-- The `(r, g, b)` fill of vertebra `i`, interpolated per channel
from the accent color (`t = 0`) to the main color (`t = 1`). -/
def vertebra_color (color_accent color_main : ℕ × ℕ × ℕ) (i : ℕ) :
    ℤ × ℤ × ℤ :=
  (vertebra_channel color_accent.1 color_main.1 i,
   vertebra_channel color_accent.2.1 color_main.2.1 i,
   vertebra_channel color_accent.2.2 color_main.2.2 i)

/-- `vertebra_width_base = int(60 * scale)`. -/
noncomputable def vertebra_width_base (scale : ℝ) : ℤ := pyIntR (60 * scale)

/-- `vertebra_height = int(22 * scale)`. -/
noncomputable def vertebra_height (scale : ℝ) : ℤ := pyIntR (22 * scale)

/-- `gap = int(8 * scale)`. -/
noncomputable def gap (scale : ℝ) : ℤ := pyIntR (8 * scale)

/-- `dist_from_center = abs(i - vertebrae_count // 2)` with
`vertebrae_count = 7`. -/
def dist_from_center (i : ℕ) : ℕ := ((i : ℤ) - 3).natAbs

/-- `width_factor = 1.0 - (dist_from_center * 0.08)`. -/
def width_factor (i : ℕ) : ℝ := 1 - (dist_from_center i : ℝ) * 0.08

/-- `x_offset = int(math.sin(t * math.pi * 1.2 - 0.3) * 40 * scale)`
with `t = i / 6`. -/
noncomputable def x_offset (scale : ℝ) (i : ℕ) : ℤ :=
  pyIntR (Real.sin ((i : ℝ) / 6 * Real.pi * 1.2 - 0.3) * 40 * scale)

/-- `w = int(vertebra_width_base * width_factor)`. -/
noncomputable def vertebra_w (scale : ℝ) (i : ℕ) : ℤ :=
  pyIntR ((vertebra_width_base scale : ℝ) * width_factor i)

/-- A `draw.rounded_rectangle([x0, y0, x1, y1], radius, fill)` call. -/
structure RRect where
  x0 : ℤ
  y0 : ℤ
  x1 : ℤ
  y1 : ℤ
  radius : ℤ
  fill : ℤ × ℤ × ℤ

/-- The seven vertebra rounded-rectangles drawn by `draw_spine_icon`,
in drawing order. -/
noncomputable def vertebrae (cx cy : ℤ) (scale : ℝ)
    (color_main color_accent : ℕ × ℕ × ℕ) : List RRect :=
  (List.range 7).map fun i =>
    let h := vertebra_height scale
    let g := gap scale
    let total_height := 7 * (h + g) - g
    let start_y := cy - Int.fdiv total_height 2
    let w := vertebra_w scale i
    let y := start_y + (i : ℤ) * (h + g)
    let x := cx + x_offset scale i - Int.fdiv w 2
    ⟨x, y, x + w, y + h, pyIntR ((vertebra_height scale : ℝ) * 0.4),
     vertebra_color color_accent color_main i⟩

/-- A `draw.arc([x0, y0, x1, y1], start, end, fill, width)` call. -/
structure Arc where
  x0 : ℤ
  y0 : ℤ
  x1 : ℤ
  y1 : ℤ
  start_angle : ℤ
  end_angle : ℤ
  fill : ℕ × ℕ × ℕ
  width : ℤ

/-- The six motion arcs drawn by `draw_spine_icon` after the
vertebrae: for `(side, start, end)` in `[(-1, 140, 220), (1, -40, 40)]`
and `arc_size` in `[140, 110, 80]`. -/
noncomputable def motion_arcs (cx cy : ℤ) (scale : ℝ)
    (color_main color_accent : ℕ × ℕ × ℕ) : List Arc :=
  ([(-1, 140, 220), (1, -40, 40)] : List (ℤ × ℤ × ℤ)).flatMap fun sae =>
    let arc_cx := cx + sae.1 * pyIntR (100 * scale)
    let color := if sae.1 = -1 then color_accent else color_main
    ([140, 110, 80] : List ℤ).map fun arc_size =>
      let s := pyIntR ((arc_size : ℝ) * scale)
      ⟨arc_cx - s, cy - s, arc_cx + s, cy + s, sae.2.1, sae.2.2, color,
       pyIntR (4 * scale)⟩

/-! #### `make_icon`: the RGBA render and its flatten onto RGB

Each PIL drawing call is modelled as an `Op`: the set of pixels it
paints together with the color it writes.  PIL fills a plain
`(r, g, b)` tuple on an RGBA image at alpha 255, so every op built
below carries alpha 255.  The regions themselves (rounded-rectangle
body, ellipse outline band, arc stroke) are modelled as pixel
predicates; no theorem below depends on their exact extent, only on
the colors written. -/

/-- One drawing call: the painted pixel set and the color written. -/
structure Op where
  region : ℤ → ℤ → Prop
  color : RGBA

/-- Pixels of a filled rounded rectangle: the two full-height /
full-width core rectangles plus the four corner disks. -/
def roundedRectRegion (x0 y0 x1 y1 rad x y : ℤ) : Prop :=
  inRect (x0 + rad) y0 (x1 - rad) y1 x y ∨
  inRect x0 (y0 + rad) x1 (y1 - rad) x y ∨
  inEllipse x0 y0 (x0 + 2 * rad) (y0 + 2 * rad) x y ∨
  inEllipse (x1 - 2 * rad) y0 x1 (y0 + 2 * rad) x y ∨
  inEllipse x0 (y1 - 2 * rad) (x0 + 2 * rad) y1 x y ∨
  inEllipse (x1 - 2 * rad) (y1 - 2 * rad) x1 y1 x y

/-- Pixels of an ellipse outline of stroke width `w`: inside the
outer ellipse but outside the ellipse shrunk by `w`. -/
def ellipseOutlineRegion (x0 y0 x1 y1 w x y : ℤ) : Prop :=
  inEllipse x0 y0 x1 y1 x y ∧
    ¬ inEllipse (x0 + w) (y0 + w) (x1 - w) (y1 - w) x y

/-- Pixels of an arc stroke: within half the stroke width of some
point of the ellipse inscribed in the bounding box whose parameter
angle (in degrees) lies between `start` and `end`. -/
def arcRegion (x0 y0 x1 y1 sa ea w : ℤ) (x y : ℤ) : Prop :=
  ∃ θ : ℝ, (sa : ℝ) ≤ θ ∧ θ ≤ (ea : ℝ) ∧
    ((x : ℝ) - (((x0 : ℝ) + (x1 : ℝ)) / 2 +
        ((x1 : ℝ) - (x0 : ℝ)) / 2 * Real.cos (θ * Real.pi / 180))) ^ 2 +
      ((y : ℝ) - (((y0 : ℝ) + (y1 : ℝ)) / 2 +
        ((y1 : ℝ) - (y0 : ℝ)) / 2 * Real.sin (θ * Real.pi / 180))) ^ 2 ≤
      ((w : ℝ) / 2) ^ 2

open Classical in
/-- Painting one op over a canvas. -/
noncomputable def applyOp (canvas : ℤ → ℤ → RGBA) (op : Op) : ℤ → ℤ → RGBA :=
  fun x y => if op.region x y then op.color else canvas x y

/-- The ops of `draw_circle_bg(draw, size, bg_color)`: one ellipse
outline at 38% of the canvas, brightened per channel and clamped. -/
noncomputable def circle_bg_ops (size : ℕ) (bg : ℕ × ℕ × ℕ) : List Op :=
  let c : ℤ := (size : ℤ) / 2
  let radius : ℤ := pyIntR ((size : ℝ) * 0.38)
  let ring : ℕ × ℕ × ℕ :=
    (min 255 (bg.1 + 20), min 255 (bg.2.1 + 25), min 255 (bg.2.2 + 35))
  [⟨ellipseOutlineRegion (c - radius) (c - radius) (c + radius) (c + radius)
      (pyIntR ((size : ℝ) * 0.015)),
    ⟨ring.1, ring.2.1, ring.2.2, 255⟩⟩]

/-- The ops of `draw_spine_icon`: seven vertebra rounded rectangles,
then six motion arcs; every fill is a plain RGB tuple, hence drawn
by PIL at alpha 255. -/
noncomputable def spine_icon_ops (cx cy : ℤ) (scale : ℝ)
    (color_main color_accent : ℕ × ℕ × ℕ) : List Op :=
  (vertebrae cx cy scale color_main color_accent).map
    (fun v => ⟨roundedRectRegion v.x0 v.y0 v.x1 v.y1 v.radius,
      ⟨v.fill.1, v.fill.2.1, v.fill.2.2, 255⟩⟩) ++
  (motion_arcs cx cy scale color_main color_accent).map
    (fun a => ⟨arcRegion a.x0 a.y0 a.x1 a.y1 a.start_angle a.end_angle a.width,
      ⟨a.fill.1, a.fill.2.1, a.fill.2.2, 255⟩⟩)

/-- All drawing ops of `make_icon(size, content_scale, with_bg_ring)`
in drawing order. -/
noncomputable def make_icon_ops (size : ℕ) (content_scale : ℝ)
    (with_bg_ring : Bool) : List Op :=
  (if with_bg_ring then circle_bg_ops size DARK_BG else []) ++
    spine_icon_ops ((size : ℤ) / 2) ((size : ℤ) / 2)
      ((size : ℝ) / 1024 * content_scale) TEAL TEAL_LIGHT

/-- The intermediate RGBA canvas of `make_icon`: the opaque dark
background `DARK_BG + (255,)` with all ops painted over it. -/
noncomputable def make_icon_rgba (size : ℕ) (content_scale : ℝ)
    (with_bg_ring : Bool) : ℤ → ℤ → RGBA :=
  (make_icon_ops size content_scale with_bg_ring).foldl applyOp
    (fun _ _ => ⟨15, 23, 42, 255⟩)

/-- `rgb.paste(img, mask=img.split()[3])` over the solid `DARK_BG`
background: per-channel alpha blend using the render's own alpha. -/
def paste_rgb (bg : ℤ × ℤ × ℤ) (img : ℤ → ℤ → RGBA) (x y : ℤ) :
    ℤ × ℤ × ℤ :=
  let p := img x y
  ((bg.1 * (255 - p.a) + p.r * p.a) / 255,
   (bg.2.1 * (255 - p.a) + p.g * p.a) / 255,
   (bg.2.2 * (255 - p.a) + p.b * p.a) / 255)

/-- `make_icon`: the exported RGB image. -/
noncomputable def make_icon (size : ℕ) (content_scale : ℝ)
    (with_bg_ring : Bool) : ℤ → ℤ → ℤ × ℤ × ℤ :=
  paste_rgb (15, 23, 42) (make_icon_rgba size content_scale with_bg_ring)

end Scripts

/-! ## Theorems -/

namespace Desktop

/-- The seven template-icon coordinates at a multiple `22 * m` of the
reference size are exactly `m` times their values at size 22. -/
theorem template_coords_linear (m : ℕ) :
    head_radius (22 * m) = m * head_radius 22 ∧
    head_center_x (22 * m) = m * head_center_x 22 ∧
    head_center_y (22 * m) = m * head_center_y 22 ∧
    spine_width (22 * m) = m * spine_width 22 ∧
    spine_left (22 * m) = m * spine_left 22 ∧
    spine_top (22 * m) = m * spine_top 22 ∧
    spine_bottom (22 * m) = m * spine_bottom 22 := by
  simp only [head_radius, head_center_x, head_center_y, spine_width,
    spine_left, spine_top, spine_bottom]
  refine ⟨by omega, by omega, by omega, by omega, by omega, by omega, by omega⟩

/-- C2 (corrected), counterexample: for sizes 7 and 14 the spine-top
coordinate is 1 and 4 respectively, so scaling the size-7 value by
`14 / 7 = 2` gives 2, which differs from 4 by more than 1 pixel. -/
theorem c2_proportionality_counterexample :
    spine_top 7 = 1 ∧ spine_top 14 = 4 ∧
    ¬ |(spine_top 7 : ℚ) * 14 / 7 - (spine_top 14 : ℚ)| ≤ 1 := by
  refine ⟨rfl, rfl, ?_⟩
  norm_num [spine_top, head_center_y, head_radius]

/-- C2 (amended): for sizes that are multiples of the reference size
22 the template-icon geometry is proportionally identical without any
rounding error: every coordinate computed for `22 * m₁`, multiplied
by the size ratio (equivalently, cross-multiplied by the two sizes),
agrees exactly with the coordinate computed for `22 * m₂`. -/
theorem c2_geometry_scales_exactly_on_multiples (m₁ m₂ : ℕ) :
    head_radius (22 * m₁) * (22 * m₂) = head_radius (22 * m₂) * (22 * m₁) ∧
    head_center_x (22 * m₁) * (22 * m₂) = head_center_x (22 * m₂) * (22 * m₁) ∧
    head_center_y (22 * m₁) * (22 * m₂) = head_center_y (22 * m₂) * (22 * m₁) ∧
    spine_width (22 * m₁) * (22 * m₂) = spine_width (22 * m₂) * (22 * m₁) ∧
    spine_left (22 * m₁) * (22 * m₂) = spine_left (22 * m₂) * (22 * m₁) ∧
    spine_top (22 * m₁) * (22 * m₂) = spine_top (22 * m₂) * (22 * m₁) ∧
    spine_bottom (22 * m₁) * (22 * m₂) = spine_bottom (22 * m₂) * (22 * m₁) := by
  obtain ⟨a1, a2, a3, a4, a5, a6, a7⟩ := template_coords_linear m₁
  obtain ⟨b1, b2, b3, b4, b5, b6, b7⟩ := template_coords_linear m₂
  rw [a1, a2, a3, a4, a5, a6, a7, b1, b2, b3, b4, b5, b6, b7]
  refine ⟨by ring, by ring, by ring, by ring, by ring, by ring, by ring⟩

/-- C3: in the size-44 template render every pixel is either exactly
opaque black `(0, 0, 0, 255)` or fully transparent; the head-center
pixel `(22, 10)` (`head_center_y = 5 * scale` with `scale = 2`) is
filled; the spine column is filled from `y = 16` all the way down to
`y = 38` (`19 * scale`) and empty immediately below. -/
theorem c3_template_icon_44_pixels :
    (∀ x y : Fin 44, create_template_icon 44 x y = ⟨0, 0, 0, 255⟩ ∨
      (create_template_icon 44 x y).a = 0) ∧
    create_template_icon 44 22 10 = ⟨0, 0, 0, 255⟩ ∧
    (∀ dy : Fin 23, create_template_icon 44 22 (16 + dy.val) = ⟨0, 0, 0, 255⟩) ∧
    (create_template_icon 44 22 39).a = 0 := by
  refine ⟨by decide, by decide, by decide, by decide⟩

/-! #### Helper lemmas about hex parsing -/

lemma hex_not_space {c : Char} (h : isHexDigit c = true) :
    isSpaceChar c = false := by
  cases hs : isSpaceChar c
  · rfl
  · exfalso
    simp only [isSpaceChar, Bool.or_eq_true, beq_iff_eq] at hs
    rcases hs with ((((h1 | h1) | h1) | h1) | h1) | h1 <;> subst h1 <;>
      exact absurd h (by decide)

lemma hex_ne_char {c : Char} (h : isHexDigit c = true) (d : Char)
    (hd : isHexDigit d = false) : c ≠ d := by
  intro he
  subst he
  rw [h] at hd
  cases hd

lemma lstripHash_of_hex {s : List Char}
    (h : ∀ c ∈ s, isHexDigit c = true) : lstripHash s = s := by
  cases s with
  | nil => rfl
  | cons c t =>
    unfold lstripHash
    rw [List.dropWhile_cons, if_neg]
    simp only [beq_iff_eq]
    exact hex_ne_char (h c (List.mem_cons_self c t)) '#' (by decide)

lemma dropWhile_space_of_no_space {s : List Char}
    (h : ∀ c ∈ s, isSpaceChar c = false) :
    s.dropWhile isSpaceChar = s := by
  cases s with
  | nil => rfl
  | cons c t =>
    rw [List.dropWhile_cons, if_neg]
    rw [h c (List.mem_cons_self c t)]
    simp

lemma stripWS_of_hex {s : List Char}
    (h : ∀ c ∈ s, isHexDigit c = true) : stripWS s = s := by
  unfold stripWS
  rw [dropWhile_space_of_no_space (fun c hc => hex_not_space (h c hc)),
    dropWhile_space_of_no_space
      (fun c hc => hex_not_space (h c (List.mem_reverse.mp hc))),
    List.reverse_reverse]

lemma noDoubleUnderscore_of_hex {s : List Char}
    (h : ∀ c ∈ s, isHexDigit c = true) : noDoubleUnderscore s = true := by
  induction s with
  | nil => rfl
  | cons a t ih =>
    cases t with
    | nil => rfl
    | cons b t2 =>
      unfold noDoubleUnderscore
      rw [Bool.and_eq_true]
      constructor
      · have : a ≠ '_' :=
          hex_ne_char (h a (List.mem_cons_self a _)) '_' (by decide)
        simp [this]
      · exact ih (fun c hc => h c (List.mem_cons_of_mem a hc))

lemma validDigits_of_hex {s : List Char} (hne : s ≠ [])
    (h : ∀ c ∈ s, isHexDigit c = true) : validDigits s = true := by
  unfold validDigits
  rw [Bool.and_eq_true, Bool.and_eq_true, Bool.and_eq_true, Bool.and_eq_true]
  refine ⟨⟨⟨⟨?_, ?_⟩, ?_⟩, noDoubleUnderscore_of_hex h⟩, ?_⟩
  · simp [List.isEmpty_iff, hne]
  · cases s with
    | nil => exact absurd rfl hne
    | cons c t =>
      have : c ≠ '_' :=
        hex_ne_char (h c (List.mem_cons_self c t)) '_' (by decide)
      simp [this]
  · cases hg : s.getLast? with
    | none => simp
    | some c =>
      have hmem : c ∈ s := List.mem_of_getLast?_eq_some hg
      have : c ≠ '_' := hex_ne_char (h c hmem) '_' (by decide)
      simp [this]
  · rw [List.all_eq_true]
    intro c hc
    rw [Bool.or_eq_true]
    exact Or.inr (h c hc)

lemma pyIntHex_isSome_of_hex {s : List Char} (hne : s ≠ [])
    (h : ∀ c ∈ s, isHexDigit c = true) : (pyIntHex s).isSome = true := by
  unfold pyIntHex
  rw [stripWS_of_hex h]
  cases s with
  | nil => exact absurd rfl hne
  | cons c t =>
    have hc := h c (List.mem_cons_self c t)
    rw [if_neg, if_neg]
    · unfold parseDigits
      rw [if_pos (validDigits_of_hex hne h)]
      rfl
    · simp only [List.head?_cons, Option.some_inj]
      exact hex_ne_char hc '+' (by decide)
    · simp only [List.head?_cons, Option.some_inj]
      exact hex_ne_char hc '-' (by decide)

lemma pyIntHex_nil : pyIntHex [] = none := rfl

lemma parseHexColor_eq_none_of_short {s : List Char} (h : s.length ≤ 4) :
    parseHexColor s = none := by
  have ht : (lstripHash s).length ≤ 4 :=
    le_trans (List.dropWhile_suffix _).length_le h
  have h3 : ((lstripHash s).drop 4).take 2 = [] := by
    rw [List.drop_eq_nil_of_le ht]
    rfl
  unfold parseHexColor
  simp only [h3, pyIntHex_nil]
  cases pyIntHex (((lstripHash s).drop 0).take 2) <;>
    cases pyIntHex (((lstripHash s).drop 2).take 2) <;> rfl

/-- C5: hex parsing maps `"10b981"` to `(16, 185, 129)` and
`"#ef4444"` to `(239, 68, 68)`, and for every 6-hex-digit string a
leading `'#'` is stripped before parsing, so inputs with and without
it yield the same RGB triple. -/
theorem c5_parse_hex_color :
    parseHexColor "10b981".toList = some (16, 185, 129) ∧
    parseHexColor "#ef4444".toList = some (239, 68, 68) ∧
    ∀ s : List Char, s.length = 6 → (∀ c ∈ s, isHexDigit c = true) →
      parseHexColor ('#' :: s) = parseHexColor s := by
  refine ⟨by decide, by decide, ?_⟩
  intro s _ _
  have h : lstripHash ('#' :: s) = lstripHash s := by
    unfold lstripHash
    rw [List.dropWhile_cons, if_pos]
    rfl
  unfold parseHexColor
  rw [h]

/-- Witness for C5 at the concrete input `"10b981"`. -/
theorem c5_parse_hex_color_witness :
    ("10b981".toList.length = 6) ∧
    (∀ c ∈ "10b981".toList, isHexDigit c = true) ∧
    parseHexColor ('#' :: "10b981".toList) = parseHexColor "10b981".toList :=
  ⟨by decide, by decide, c5_parse_hex_color.2.2 _ (by decide) (by decide)⟩

/-- C9 (corrected), counterexample: `"10b981f"` has length 7 — a
"wrong length" — yet the colored-dot rendering succeeds, because the
parser only ever reads the first six characters. -/
theorem c9_wrong_length_succeeds_counterexample :
    (create_colored_circle 22 "10b981f".toList).isSome = true ∧
    "10b981f".toList.length ≠ 6 := by
  refine ⟨by decide, by decide⟩

/-- C9 (amended): the colored-dot operation fails precisely when one
of the three two-character windows at offsets 0, 2, 4 (taken after
stripping leading `'#'`s) is rejected by Python's `int(·, 16)`.
Consequently every string of length at most 4 fails, while a string
made of hex digits succeeds as soon as it has at least 5 of them —
wrong overall length alone does not cause a failure, and characters
beyond the sixth are never examined. -/
theorem c9_parse_failure_characterization :
    (∀ s : List Char, s.length ≤ 4 → create_colored_circle 22 s = none) ∧
    (∀ s : List Char, (∀ c ∈ s, isHexDigit c = true) →
      ((create_colored_circle 22 s).isSome = true ↔ 5 ≤ s.length)) := by
  constructor
  · intro s h
    unfold create_colored_circle
    rw [parseHexColor_eq_none_of_short h]
    rfl
  · intro s hhex
    unfold create_colored_circle
    rw [Option.isSome_map']
    constructor
    · intro hsome
      by_contra hlt
      rw [parseHexColor_eq_none_of_short (by omega)] at hsome
      cases hsome
    · intro hlen
      have hl := lstripHash_of_hex hhex
      have s0 : (pyIntHex ((s.drop 0).take 2)).isSome = true := by
        apply pyIntHex_isSome_of_hex
        · have : ((s.drop 0).take 2).length = 2 := by
            rw [List.length_take, List.length_drop]
            omega
          intro he
          rw [he] at this
          simp at this
        · intro c hc
          exact hhex c (List.drop_subset _ _ (List.take_subset _ _ hc))
      have s1 : (pyIntHex ((s.drop 2).take 2)).isSome = true := by
        apply pyIntHex_isSome_of_hex
        · have : ((s.drop 2).take 2).length = 2 := by
            rw [List.length_take, List.length_drop]
            omega
          intro he
          rw [he] at this
          simp at this
        · intro c hc
          exact hhex c (List.drop_subset _ _ (List.take_subset _ _ hc))
      have s2 : (pyIntHex ((s.drop 4).take 2)).isSome = true := by
        apply pyIntHex_isSome_of_hex
        · have : 1 ≤ ((s.drop 4).take 2).length := by
            rw [List.length_take, List.length_drop]
            omega
          intro he
          rw [he] at this
          simp at this
        · intro c hc
          exact hhex c (List.drop_subset _ _ (List.take_subset _ _ hc))
      obtain ⟨r, hr⟩ := Option.isSome_iff_exists.mp s0
      obtain ⟨g, hg⟩ := Option.isSome_iff_exists.mp s1
      obtain ⟨b, hb⟩ := Option.isSome_iff_exists.mp s2
      unfold parseHexColor
      simp only [hl, hr, hg, hb]
      rfl

/-- Witness for C9's amended theorem: a two-character input fails;
the palette string `"10b981"` (six hex digits) succeeds. -/
theorem c9_parse_failure_characterization_witness :
    (create_colored_circle 22 ['a', 'b'] = none) ∧
    ((create_colored_circle 22 "10b981".toList).isSome = true ↔
      5 ≤ "10b981".toList.length) :=
  ⟨c9_parse_failure_characterization.1 _ (by decide),
   c9_parse_failure_characterization.2 _ (by decide)⟩

/-! #### The colored dot at size 22 -/

lemma dot22_inside_dist_bound : ∀ x y : Fin 22,
    inEllipse 4 4 18 18 x.val y.val →
      100 * ((x.val : ℤ) - 11) ^ 2 + 100 * ((y.val : ℤ) - 11) ^ 2 ≤ 5929 := by
  decide

lemma dot22_outside_bbox_not_in : ∀ x y : Fin 22,
    (x.val < 4 ∨ 18 < x.val ∨ y.val < 4 ∨ 18 < y.val) →
      ¬ inEllipse 4 4 18 18 x.val y.val := by
  decide

lemma create_colored_circle_rgb_22_eq (r g b : ℤ) (x y : ℕ) :
    create_colored_circle_rgb 22 r g b x y =
      if inEllipse 4 4 18 18 x y then (⟨r, g, b, 230⟩ : RGBA)
      else ⟨0, 0, 0, 0⟩ := by
  unfold create_colored_circle_rgb circle_radius circle_center
  norm_num

/-- C4: in the size-22 colored-dot render with any parsed fill
`(r, g, b)`, every non-transparent pixel lies within distance
`0.35 · 22 = 7.7` of the canvas center `(11, 11)` (stated with
squared distances scaled by 100: `100·d² ≤ 7.7² · 100 = 5929`);
every pixel of the filled disk has color `(r, g, b)` at alpha exactly
230; and every pixel outside the circle's bounding box
`[4, 4, 18, 18]` has alpha 0. -/
theorem c4_colored_dot_22 (r g b : ℤ) :
    (∀ x y : Fin 22, (create_colored_circle_rgb 22 r g b x y).a ≠ 0 →
      100 * ((x.val : ℤ) - 11) ^ 2 + 100 * ((y.val : ℤ) - 11) ^ 2 ≤ 5929) ∧
    (∀ x y : Fin 22, inEllipse 4 4 18 18 x.val y.val →
      create_colored_circle_rgb 22 r g b x y = ⟨r, g, b, 230⟩) ∧
    (∀ x y : Fin 22, (x.val < 4 ∨ 18 < x.val ∨ y.val < 4 ∨ 18 < y.val) →
      (create_colored_circle_rgb 22 r g b x y).a = 0) := by
  refine ⟨?_, ?_, ?_⟩
  · intro x y h
    rw [create_colored_circle_rgb_22_eq] at h
    by_cases hin : inEllipse 4 4 18 18 x.val y.val
    · exact dot22_inside_dist_bound x y hin
    · rw [if_neg hin] at h
      exact absurd rfl h
  · intro x y hin
    rw [create_colored_circle_rgb_22_eq, if_pos hin]
  · intro x y hout
    rw [create_colored_circle_rgb_22_eq,
      if_neg (dot22_outside_bbox_not_in x y hout)]

/-- Witness for C4 at the green palette color `(16, 185, 129)`: the
center pixel is filled at alpha 230 and satisfies the distance bound,
and the corner pixel `(0, 0)` is transparent. -/
theorem c4_colored_dot_22_witness :
    (create_colored_circle_rgb 22 16 185 129 11 11 = ⟨16, 185, 129, 230⟩) ∧
    (100 * (((11 : Fin 22).val : ℤ) - 11) ^ 2 +
      100 * (((11 : Fin 22).val : ℤ) - 11) ^ 2 ≤ 5929) ∧
    ((create_colored_circle_rgb 22 16 185 129 0 0).a = 0) :=
  ⟨(c4_colored_dot_22 16 185 129).2.1 11 11 (by decide),
   (c4_colored_dot_22 16 185 129).1 11 11 (by decide),
   (c4_colored_dot_22 16 185 129).2.2 0 0 (by decide)⟩

/-- C8: `main` writes exactly these 8 files, in this order, with the
declared pixel dimensions (22×22 for 1x, 44×44 for @2x); sampling
each image at its center shows the template files opaque black and
the colored dots carrying the palette colors `#10b981`, `#f59e0b`,
`#ef4444` at alpha 230. -/
theorem c8_main_outputs :
    main.map (List.map fun f =>
      (f.name, f.width, f.height, f.pixels (f.width / 2) (f.height / 2))) =
    some
      [("iconTemplate.png", 22, 22, ⟨0, 0, 0, 255⟩),
       ("iconTemplate@2x.png", 44, 44, ⟨0, 0, 0, 255⟩),
       ("icon-green.png", 22, 22, ⟨16, 185, 129, 230⟩),
       ("icon-green@2x.png", 44, 44, ⟨16, 185, 129, 230⟩),
       ("icon-yellow.png", 22, 22, ⟨245, 158, 11, 230⟩),
       ("icon-yellow@2x.png", 44, 44, ⟨245, 158, 11, 230⟩),
       ("icon-red.png", 22, 22, ⟨239, 68, 68, 230⟩),
       ("icon-red@2x.png", 44, 44, ⟨239, 68, 68, 230⟩)] := by
  rfl

end Desktop

namespace Scripts

/-! #### Vertebra color interpolation (C1) -/

lemma vertebra_channel_zero (a m : ℕ) : vertebra_channel a m 0 = a := by
  simp [vertebra_channel, pyIntQ, Nat.cast_nonneg, Int.floor_natCast]

lemma vertebra_channel_six (a m : ℕ) : vertebra_channel a m 6 = m := by
  unfold vertebra_channel pyIntQ
  have h6 : ((6 : ℕ) : ℚ) / 6 = 1 := by norm_num
  rw [h6, mul_one, add_sub_cancel, if_pos (Nat.cast_nonneg m),
    Int.floor_natCast]

lemma vertebra_channel_bounds (a m i : ℕ) (h : i ≤ 6) :
    ((min a m : ℕ) : ℤ) ≤ vertebra_channel a m i ∧
      vertebra_channel a m i ≤ ((max a m : ℕ) : ℤ) := by
  unfold vertebra_channel pyIntQ
  have hi0 : (0 : ℚ) ≤ (i : ℚ) / 6 := by positivity
  have hi1 : (i : ℚ) / 6 ≤ 1 := by
    rw [div_le_one (by norm_num)]
    exact_mod_cast h
  have hlow : ((min a m : ℕ) : ℚ) ≤
      (a : ℚ) + ((m : ℚ) - (a : ℚ)) * ((i : ℚ) / 6) := by
    rcases le_total a m with hc | hc
    · have hc' : (a : ℚ) ≤ (m : ℚ) := by exact_mod_cast hc
      have key := mul_nonneg (sub_nonneg.mpr hc') hi0
      rw [min_eq_left hc]
      nlinarith [key]
    · have hc' : (m : ℚ) ≤ (a : ℚ) := by exact_mod_cast hc
      have key : (0 : ℚ) ≤ ((a : ℚ) - (m : ℚ)) * (1 - (i : ℚ) / 6) :=
        mul_nonneg (by linarith) (by linarith)
      rw [min_eq_right hc]
      nlinarith [key]
  have hhigh : (a : ℚ) + ((m : ℚ) - (a : ℚ)) * ((i : ℚ) / 6) ≤
      ((max a m : ℕ) : ℚ) := by
    rcases le_total a m with hc | hc
    · have hc' : (a : ℚ) ≤ (m : ℚ) := by exact_mod_cast hc
      have key : (0 : ℚ) ≤ ((m : ℚ) - (a : ℚ)) * (1 - (i : ℚ) / 6) :=
        mul_nonneg (by linarith) (by linarith)
      rw [max_eq_right hc]
      nlinarith [key]
    · have hc' : (m : ℚ) ≤ (a : ℚ) := by exact_mod_cast hc
      have key := mul_nonneg (sub_nonneg.mpr hc') hi0
      rw [max_eq_left hc]
      nlinarith [key]
  have h0q : (0 : ℚ) ≤ (a : ℚ) + ((m : ℚ) - (a : ℚ)) * ((i : ℚ) / 6) :=
    le_trans (Nat.cast_nonneg _) hlow
  rw [if_pos h0q]
  constructor
  · exact Int.le_floor.mpr (by exact_mod_cast hlow)
  · calc ⌊(a : ℚ) + ((m : ℚ) - (a : ℚ)) * ((i : ℚ) / 6)⌋ ≤
        ⌊((max a m : ℕ) : ℚ)⌋ := Int.floor_mono hhigh
    _ = ((max a m : ℕ) : ℤ) := Int.floor_natCast _

/-- C1 (corrected), counterexample: with accent `(0, 0, 0)` and main
`(1, 1, 1)` — two different colors — the fill computed for the
intermediate vertebra index 1 is `(0, 0, 0)`: each channel equals the
accent channel instead of lying strictly between 0 and 1 (no integer
can). -/
theorem c1_strict_interpolation_counterexample :
    vertebra_color (0, 0, 0) (1, 1, 1) 1 = (0, 0, 0) ∧
    ¬ (0 < (vertebra_color (0, 0, 0) (1, 1, 1) 1).1 ∧
        (vertebra_color (0, 0, 0) (1, 1, 1) 1).1 < 1) ∧
    ((0, 0, 0) : ℕ × ℕ × ℕ) ≠ (1, 1, 1) := by
  have hch : vertebra_channel 0 1 1 = 0 := by
    unfold vertebra_channel pyIntQ
    rw [if_pos (by norm_num), Int.floor_eq_iff]
    norm_num
  refine ⟨by simp [vertebra_color, hch], by simp [vertebra_color, hch],
    by decide⟩

/-- C1 (amended): the vertebra fill equals the accent color exactly
at index 0 and the main color exactly at index 6, and at every index
`i ≤ 6` each channel lies in the closed interval bounded by the two
corresponding channel values (truncation can make an intermediate
channel hit a bound even when the colors differ, so the interval is
closed rather than open). -/
theorem c1_vertebra_color_bounds (ca cm : ℕ × ℕ × ℕ) (i : ℕ) (h : i ≤ 6) :
    vertebra_color ca cm 0 = ((ca.1 : ℤ), (ca.2.1 : ℤ), (ca.2.2 : ℤ)) ∧
    vertebra_color ca cm 6 = ((cm.1 : ℤ), (cm.2.1 : ℤ), (cm.2.2 : ℤ)) ∧
    (((min ca.1 cm.1 : ℕ) : ℤ) ≤ (vertebra_color ca cm i).1 ∧
      (vertebra_color ca cm i).1 ≤ ((max ca.1 cm.1 : ℕ) : ℤ)) ∧
    (((min ca.2.1 cm.2.1 : ℕ) : ℤ) ≤ (vertebra_color ca cm i).2.1 ∧
      (vertebra_color ca cm i).2.1 ≤ ((max ca.2.1 cm.2.1 : ℕ) : ℤ)) ∧
    (((min ca.2.2 cm.2.2 : ℕ) : ℤ) ≤ (vertebra_color ca cm i).2.2 ∧
      (vertebra_color ca cm i).2.2 ≤ ((max ca.2.2 cm.2.2 : ℕ) : ℤ)) := by
  unfold vertebra_color
  exact ⟨by rw [vertebra_channel_zero, vertebra_channel_zero,
      vertebra_channel_zero],
    by rw [vertebra_channel_six, vertebra_channel_six, vertebra_channel_six],
    vertebra_channel_bounds _ _ _ h,
    vertebra_channel_bounds _ _ _ h,
    vertebra_channel_bounds _ _ _ h⟩

/-- Witness for C1's amended theorem at the program's actual colors
(accent `TEAL_LIGHT = (94, 234, 212)`, main `TEAL = (20, 184, 166)`)
and the intermediate index 2. -/
theorem c1_vertebra_color_bounds_witness :
    (2 ≤ 6) ∧
    (vertebra_color (94, 234, 212) (20, 184, 166) 0 =
        ((94 : ℤ), (234 : ℤ), (212 : ℤ)) ∧
     vertebra_color (94, 234, 212) (20, 184, 166) 6 =
        ((20 : ℤ), (184 : ℤ), (166 : ℤ)) ∧
     (((min 94 20 : ℕ) : ℤ) ≤
        (vertebra_color (94, 234, 212) (20, 184, 166) 2).1 ∧
      (vertebra_color (94, 234, 212) (20, 184, 166) 2).1 ≤
        ((max 94 20 : ℕ) : ℤ)) ∧
     (((min 234 184 : ℕ) : ℤ) ≤
        (vertebra_color (94, 234, 212) (20, 184, 166) 2).2.1 ∧
      (vertebra_color (94, 234, 212) (20, 184, 166) 2).2.1 ≤
        ((max 234 184 : ℕ) : ℤ)) ∧
     (((min 212 166 : ℕ) : ℤ) ≤
        (vertebra_color (94, 234, 212) (20, 184, 166) 2).2.2 ∧
      (vertebra_color (94, 234, 212) (20, 184, 166) 2).2.2 ≤
        ((max 212 166 : ℕ) : ℤ))) :=
  ⟨by decide, c1_vertebra_color_bounds (94, 234, 212) (20, 184, 166) 2
    (by decide)⟩

/-! #### Vertebrae geometry (C6) -/

/-- C6: `draw_spine_icon` draws exactly 7 vertebrae; vertebra `i`
sits at a fixed vertical pitch `vertebra_height + gap` below the
stack's start, is horizontally displaced by
`int(sin(i/6 · π · 1.2 − 0.3) · 40 · scale)`, has width
`int(vertebra_width_base · (1 − 0.08 · |i − 3|))` (`3 = 7 // 2`), and
for a nonnegative scale no vertebra is wider than the middle one. -/
theorem c6_vertebrae_layout (cx cy : ℤ) (scale : ℝ) (cm ca : ℕ × ℕ × ℕ)
    (hs : 0 ≤ scale) :
    (vertebrae cx cy scale cm ca).length = 7 ∧
    (∀ i : Fin 7, (vertebrae cx cy scale cm ca).get? i.val =
      some ⟨cx + x_offset scale i.val - Int.fdiv (vertebra_w scale i.val) 2,
            cy - Int.fdiv (7 * (vertebra_height scale + gap scale) -
              gap scale) 2 + (i.val : ℤ) *
              (vertebra_height scale + gap scale),
            cx + x_offset scale i.val - Int.fdiv (vertebra_w scale i.val) 2 +
              vertebra_w scale i.val,
            cy - Int.fdiv (7 * (vertebra_height scale + gap scale) -
              gap scale) 2 + (i.val : ℤ) *
              (vertebra_height scale + gap scale) + vertebra_height scale,
            pyIntR ((vertebra_height scale : ℝ) * 0.4),
            vertebra_color ca cm i.val⟩) ∧
    (∀ i : Fin 7, x_offset scale i.val =
      pyIntR (Real.sin ((i.val : ℝ) / 6 * Real.pi * 1.2 - 0.3) *
        40 * scale)) ∧
    (∀ i : Fin 7, vertebra_w scale i.val =
      pyIntR ((vertebra_width_base scale : ℝ) *
        (1 - (dist_from_center i.val : ℝ) * 0.08))) ∧
    (∀ i : Fin 7, vertebra_w scale i.val ≤ vertebra_w scale 3) := by
  refine ⟨by simp [vertebrae], ?_, fun i => rfl, fun i => rfl, ?_⟩
  · intro i
    fin_cases i <;> rfl
  · intro i
    have hB0 : (0 : ℝ) ≤ 60 * scale := by linarith
    have hBz : (0 : ℤ) ≤ vertebra_width_base scale := by
      unfold vertebra_width_base pyIntR
      rw [if_pos hB0]
      exact Int.le_floor.mpr (by push_cast; linarith)
    have hB : (0 : ℝ) ≤ (vertebra_width_base scale : ℝ) := by
      exact_mod_cast hBz
    have hdist : dist_from_center i.val ≤ 3 := by
      have := i.isLt
      unfold dist_from_center
      omega
    have hd0 : (0 : ℝ) ≤ (dist_from_center i.val : ℝ) := Nat.cast_nonneg _
    have hd3 : (dist_from_center i.val : ℝ) ≤ 3 := by exact_mod_cast hdist
    have hwf1 : width_factor i.val ≤ 1 := by
      unfold width_factor
      nlinarith
    have hwf0 : 0 ≤ width_factor i.val := by
      unfold width_factor
      nlinarith
    have hwf3 : width_factor 3 = 1 := by
      unfold width_factor dist_from_center
      norm_num
    unfold vertebra_w pyIntR
    rw [if_pos (mul_nonneg hB hwf0), if_pos (by rw [hwf3, mul_one]; exact hB)]
    apply Int.floor_mono
    rw [hwf3, mul_one]
    nlinarith [mul_le_mul_of_nonneg_left hwf1 hB]

/-- Witness for C6 at `cx = cy = 0`, `scale = 1`, and the program's
actual colors. -/
theorem c6_vertebrae_layout_witness :
    ((0 : ℝ) ≤ 1) ∧
    ((vertebrae 0 0 1 (20, 184, 166) (94, 234, 212)).length = 7 ∧
     (∀ i : Fin 7, (vertebrae 0 0 1 (20, 184, 166) (94, 234, 212)).get?
        i.val =
      some ⟨0 + x_offset 1 i.val - Int.fdiv (vertebra_w 1 i.val) 2,
            0 - Int.fdiv (7 * (vertebra_height 1 + gap 1) - gap 1) 2 +
              (i.val : ℤ) * (vertebra_height 1 + gap 1),
            0 + x_offset 1 i.val - Int.fdiv (vertebra_w 1 i.val) 2 +
              vertebra_w 1 i.val,
            0 - Int.fdiv (7 * (vertebra_height 1 + gap 1) - gap 1) 2 +
              (i.val : ℤ) * (vertebra_height 1 + gap 1) + vertebra_height 1,
            pyIntR ((vertebra_height 1 : ℝ) * 0.4),
            vertebra_color (94, 234, 212) (20, 184, 166) i.val⟩) ∧
     (∀ i : Fin 7, x_offset 1 i.val =
      pyIntR (Real.sin ((i.val : ℝ) / 6 * Real.pi * 1.2 - 0.3) * 40 * 1)) ∧
     (∀ i : Fin 7, vertebra_w 1 i.val =
      pyIntR ((vertebra_width_base 1 : ℝ) *
        (1 - (dist_from_center i.val : ℝ) * 0.08))) ∧
     (∀ i : Fin 7, vertebra_w 1 i.val ≤ vertebra_w 1 3)) :=
  ⟨by norm_num,
   c6_vertebrae_layout 0 0 1 (20, 184, 166) (94, 234, 212) (by norm_num)⟩

/-! #### Motion arcs (C7) -/

/-- C7: after the vertebrae, `draw_spine_icon` draws exactly six
arcs: two mirrored groups of three concentric arcs whose centers are
horizontally offset from the icon center by `int(100 · scale)` to the
left and right, with reference radii 140, 110, 80 (times scale), the
left group spanning 140° to 220° in the accent color and the right
group −40° to 40° in the main color, each with stroke width
`int(4 · scale)`. -/
theorem c7_motion_arcs_structure (cx cy : ℤ) (scale : ℝ)
    (cm ca : ℕ × ℕ × ℕ) :
    motion_arcs cx cy scale cm ca =
      [⟨cx - pyIntR (100 * scale) - pyIntR (140 * scale),
        cy - pyIntR (140 * scale),
        cx - pyIntR (100 * scale) + pyIntR (140 * scale),
        cy + pyIntR (140 * scale), 140, 220, ca, pyIntR (4 * scale)⟩,
       ⟨cx - pyIntR (100 * scale) - pyIntR (110 * scale),
        cy - pyIntR (110 * scale),
        cx - pyIntR (100 * scale) + pyIntR (110 * scale),
        cy + pyIntR (110 * scale), 140, 220, ca, pyIntR (4 * scale)⟩,
       ⟨cx - pyIntR (100 * scale) - pyIntR (80 * scale),
        cy - pyIntR (80 * scale),
        cx - pyIntR (100 * scale) + pyIntR (80 * scale),
        cy + pyIntR (80 * scale), 140, 220, ca, pyIntR (4 * scale)⟩,
       ⟨cx + pyIntR (100 * scale) - pyIntR (140 * scale),
        cy - pyIntR (140 * scale),
        cx + pyIntR (100 * scale) + pyIntR (140 * scale),
        cy + pyIntR (140 * scale), -40, 40, cm, pyIntR (4 * scale)⟩,
       ⟨cx + pyIntR (100 * scale) - pyIntR (110 * scale),
        cy - pyIntR (110 * scale),
        cx + pyIntR (100 * scale) + pyIntR (110 * scale),
        cy + pyIntR (110 * scale), -40, 40, cm, pyIntR (4 * scale)⟩,
       ⟨cx + pyIntR (100 * scale) - pyIntR (80 * scale),
        cy - pyIntR (80 * scale),
        cx + pyIntR (100 * scale) + pyIntR (80 * scale),
        cy + pyIntR (80 * scale), -40, 40, cm, pyIntR (4 * scale)⟩] := by
  unfold motion_arcs
  norm_num [List.flatMap_cons, List.flatMap_nil, Arc.mk.injEq]
  ring

/-! #### Opacity of the `make_icon` render (C10) -/

lemma foldl_applyOp_alpha (ops : List Op) (canvas : ℤ → ℤ → RGBA)
    (hc : ∀ x y, (canvas x y).a = 255)
    (hops : ∀ op ∈ ops, op.color.a = 255) :
    ∀ x y, ((ops.foldl applyOp canvas) x y).a = 255 := by
  induction ops generalizing canvas with
  | nil => exact hc
  | cons op rest ih =>
    intro x y
    rw [List.foldl_cons]
    apply ih
    · intro x' y'
      unfold applyOp
      split
      · exact hops op (List.mem_cons_self op rest)
      · exact hc x' y'
    · intro o ho
      exact hops o (List.mem_cons_of_mem op ho)

lemma make_icon_ops_alpha (size : ℕ) (content_scale : ℝ) (flag : Bool) :
    ∀ op ∈ make_icon_ops size content_scale flag, op.color.a = 255 := by
  intro op hop
  unfold make_icon_ops at hop
  rcases List.mem_append.mp hop with h | h
  · cases flag with
    | false => simp at h
    | true =>
      simp only [if_pos, circle_bg_ops, List.mem_singleton] at h
      rw [h]
  · unfold spine_icon_ops at h
    rcases List.mem_append.mp h with h2 | h2
    · obtain ⟨v, _, rfl⟩ := List.mem_map.mp h2
      rfl
    · obtain ⟨a, _, rfl⟩ := List.mem_map.mp h2
      rfl

/-- C10: the intermediate RGBA canvas of `make_icon` is opaque at
every pixel for every size, content scale and ring flag — the
background starts at alpha 255 and every drawing op writes alpha 255
— so the final flatten onto the RGB background is the identity on the
color channels: the exported RGB image equals the RGB channels of the
RGBA render at every pixel. -/
theorem c10_opaque_flatten_identity (size : ℕ) (content_scale : ℝ)
    (flag : Bool) (x y : ℤ) :
    (make_icon_rgba size content_scale flag x y).a = 255 ∧
    make_icon size content_scale flag x y =
      ((make_icon_rgba size content_scale flag x y).r,
       (make_icon_rgba size content_scale flag x y).g,
       (make_icon_rgba size content_scale flag x y).b) := by
  have ha : (make_icon_rgba size content_scale flag x y).a = 255 :=
    foldl_applyOp_alpha _ _ (fun _ _ => rfl)
      (make_icon_ops_alpha size content_scale flag) x y
  refine ⟨ha, ?_⟩
  unfold make_icon paste_rgb
  simp only [ha, Prod.mk.injEq]
  refine ⟨by omega, by omega, by omega⟩

end Scripts
